import Mathlib

/-!
Shallow embedding of the schoolnt bot (`main.go`): a cron-driven tick that
fetches COVID data for one fixed district, posts a status message to a
Discord channel, and posts a broadcast alert when the derived incidence
reaches 165.  Go `uint32` fields are modelled as `Nat`, `float64` fields as
`ℚ`, the Go `map[string]...` as an association list, and a Go
`(value, error)` return as a pair with an `Option String` error component.
-/

namespace Schoolnt

/-- `key` in main.go: the fixed district key of Miltenberg, used to index the
fetched mapping. -/
def key : String := "09676"

/-- The `Delta` field group of a `Response.Data` entry in main.go. -/
structure Delta where
  cases : Nat
  deaths : Nat
  recovered : Nat
deriving DecidableEq, Repr

/-- One entry of `Response.Data` in main.go (a district record). -/
structure District where
  ags : String
  name : String
  county : String
  population : Nat
  cases : Nat
  deaths : Nat
  casesPerWeek : Nat
  deathsPerWeek : Nat
  recovered : Nat
  weekIncidence : ℚ
  casesPer100k : ℚ
  delta : Delta
deriving DecidableEq, Repr

/-- The `Meta` field group of `Response` in main.go. -/
structure Meta where
  source : String
  contact : String
  info : String
  lastUpdate : String
  lastCheckedForUpdate : String
deriving DecidableEq, Repr

/-- `Response` in main.go; the Go `map[string]struct{...}` is modelled as an
association list from district key to district record. -/
structure Response where
  data : List (String × District)
  meta : Meta
deriving DecidableEq, Repr

/-- The zero value of the `Delta` struct. -/
def zeroDelta : Delta := ⟨0, 0, 0⟩

/-- The zero value of a district record, which Go map indexing yields for an
absent key. -/
def zeroDistrict : District := ⟨"", "", "", 0, 0, 0, 0, 0, 0, 0, 0, zeroDelta⟩

/-- The zero value of the `Meta` struct. -/
def zeroMeta : Meta := ⟨"", "", "", "", ""⟩

/-- `&Response{}` in `fetchData`: the zero-value record handed to the JSON
decoder (empty map, zero meta). -/
def zeroResponse : Response := ⟨[], zeroMeta⟩

/-- Go map indexing `m[k]`: the stored value when `k` is present, the zero
value when it is absent. -/
def mapIndex (m : List (String × District)) (k : String) : District :=
  (List.lookup k m).getD zeroDistrict

/-- The Go conversion `uint32(x)` applied to a `float64`: the fractional part
is discarded (truncation toward zero).  `Rat.floor.toNat` agrees with that
truncation for every `q` with `-1 < q < 2^32`; outside that range the Go
conversion is implementation-specific, and no claim concerns it. -/
def truncToUint32 (q : ℚ) : Nat := q.floor.toNat

/-- Line 96 of main.go: `incidence := uint32(data.Data[key].WeekIncidence)`. -/
def derivedIncidence (r : Response) : Nat :=
  truncToUint32 (mapIndex r.data key).weekIncidence

/-- `Config` in main.go: the three user-defined values. -/
structure Config where
  timer : String
  token : String
  channelID : String
deriving DecidableEq, Repr

/-- Model of the Go `flag` package as the program uses it: a registered
flag's pointee holds the default value until `flag.Parse` copies a matching
command-line argument over it; `parsed` records whether `flag.Parse` has run
by the time the pointee is read.  Command-line arguments are an association
list from flag name to supplied value. -/
def flagValue (args : List (String × String)) (parsed : Bool)
    (nm defVal : String) : String :=
  if parsed then (List.lookup nm args).getD defVal else defVal

/-- `init` in main.go: registers the flags `timer`, `token` and `channel`
and immediately dereferences their pointers into `config`.  `flag.Parse` is
called nowhere in the program, so every dereference happens with
`parsed = false`. -/
def initConfig (args : List (String × String)) : Config :=
  { timer := flagValue args false "timer" "0 18 * * *"
    token := flagValue args false "token" ""
    channelID := flagValue args false "channel" "" }

/-- Modelled from the spec: the configuration reading described in §6 of the
spec, where each startup parameter is optional with a default and "a
parameter supplied at startup overrides its default in the resulting
configuration".  It is what `init` would yield had `flag.Parse` run before
the flag pointers were dereferenced. -/
def initConfigSpec (args : List (String × String)) : Config :=
  { timer := flagValue args true "timer" "0 18 * * *"
    token := flagValue args true "token" ""
    channelID := flagValue args true "channel" "" }

/-- A discordgo role, restricted to the fields the program reads. -/
structure Role where
  id : String
  name : String
deriving DecidableEq, Repr

/-- discordgo `Role.Mention()`: `"<@&" + ID + ">"`. -/
def Role.mention (r : Role) : String := "<@&" ++ r.id ++ ">"

/-- A discordgo channel, restricted to the field the program reads. -/
structure Channel where
  guildID : String
deriving DecidableEq, Repr

/-- A discordgo guild, restricted to the field the program reads. -/
structure Guild where
  roles : List Role
deriving DecidableEq, Repr

/-- The observable behaviour of the discordgo session for the two lookups
`everyone` performs: `discord.Channel` and `discord.Guild`. -/
structure DiscordSession where
  channel : String → Except String Channel
  guild : String → Except String Guild

/-- `everyone` in main.go (lines 117-135): resolve the configured channel,
its guild, and the first role named exactly `"everyone"`, returning the Go
pair `(string, error)`.  Every error path returns the empty string next to
the error. -/
def everyone (cfg : Config) (discord : DiscordSession) : String × Option String :=
  match discord.channel cfg.channelID with
  | .error err => ("", some err)
  | .ok c =>
    match discord.guild c.guildID with
    | .error err => ("", some err)
    | .ok g =>
      match g.roles.find? (fun role => role.name == "everyone") with
      | some role => (role.mention, none)
      | none => ("", some "could not find everyone role, what the fuck")

/-- Outcome of `client.Get` followed by `io.ReadAll` in `fetchData`: either a
transport failure, or an HTTP response carrying a status code and a body
read that may itself fail.  The status code is part of the model precisely
so that one can state whether `fetchData` consults it. -/
inductive GetResult where
  | failure (err : String)
  | success (status : Nat) (bodyRead : Except String String)

/-- Model of `encoding/json` `Unmarshal` into `Response` (external to the
repository): from the body bytes, the record contents after unmarshalling
(starting from the zero value `&Response{}`) together with an optional
error; on error the record keeps whatever was written before the failure. -/
def Unmarshal : Type := String → Response × Option String

/-- `fetchData` in main.go (lines 152-167), returning the Go pair
`(*Response, error)`; `none` in the first component models a nil pointer.
On a transport or body-read failure the record is nil; after unmarshalling
the non-nil record `r` is returned together with the unmarshal error. -/
def fetchData (unmarshal : Unmarshal) (g : GetResult) :
    Option Response × Option String :=
  match g with
  | .failure err => (none, some err)
  | .success _ (.error err) => (none, some err)
  | .success _ (.ok bytes) =>
    let res := unmarshal bytes
    (some res.1, res.2)

/-- A wall-clock date, the input of `getCurrentTimestamp`. -/
structure Date where
  day : Nat
  month : Nat
  year : Nat
deriving DecidableEq, Repr

/-- Zero-padding to two digits, as the Go layout components `02` and `01`. -/
def pad2 (n : Nat) : String :=
  if n < 10 then "0" ++ toString n else toString n

/-- Zero-padding to four digits, as the Go layout component `2006`. -/
def pad4 (n : Nat) : String :=
  if n < 10 then "000" ++ toString n
  else if n < 100 then "00" ++ toString n
  else if n < 1000 then "0" ++ toString n
  else toString n

/-- `getCurrentTimestamp` in main.go: the current date formatted with the
layout `timeFmt = "02.01.2006"`; the wall clock itself is the argument. -/
def getCurrentTimestamp (d : Date) : String :=
  pad2 d.day ++ "." ++ pad2 d.month ++ "." ++ pad4 d.year

/-- The status message of line 100:
`fmt.Sprintf("Inzidenzwert für den %s: **%d**", timestamp, incidence)`. -/
def statusMessage (timestamp : String) (incidence : Nat) : String :=
  "Inzidenzwert für den " ++ timestamp ++ ": **" ++ toString incidence ++ "**"

/-- The broadcast message of line 103:
`fmt.Sprintf("%s Distanzunterricht, wooow", mention)`. -/
def alertMessage (mention : String) : String :=
  mention ++ " Distanzunterricht, wooow"

/-- Everything a single run of the cron callback (main.go lines 88-104)
draws from the outside world: the HTTP fetch outcome, the JSON decoder, the
current date, and the discordgo session behaviour. -/
structure TickInput where
  get : GetResult
  unmarshal : Unmarshal
  date : Date
  discord : DiscordSession

/-- What a tick observably does: the strings written to standard error and
the texts of the chat messages sent to `config.ChannelID`, in order. -/
structure TickOutput where
  stderr : List String
  sent : List String
deriving DecidableEq, Repr

/-- The cron callback body (main.go lines 88-104).  On a fetch error the
diagnostic is written to stderr and nothing is sent; otherwise the status
message is sent, and when the incidence reaches 165 the broadcast is also
sent, with the `everyone` error discarded (`mention, _ := everyone(discord)`,
whose error value leaves the empty string as the mention). -/
def tick (cfg : Config) (inp : TickInput) : TickOutput :=
  match fetchData inp.unmarshal inp.get with
  | (_, some err) =>
    { stderr := ["could not fetch COVID data: " ++ err ++ "\n"], sent := [] }
  | (dataPtr, none) =>
    match dataPtr with
    | none => { stderr := [], sent := [] }
      -- unreachable: `fetchData` never pairs a nil record with a nil error
    | some data =>
      let timestamp := getCurrentTimestamp inp.date
      let incidence := derivedIncidence data
      let status := statusMessage timestamp incidence
      if 165 ≤ incidence then
        let mention := (everyone cfg inp.discord).1
        { stderr := [], sent := [status, alertMessage mention] }
      else
        { stderr := [], sent := [status] }

/-- The tick as a transformer of the cross-tick program state.  The only
mutable state a later tick reads is the package-level `config`, and the tick
body contains no assignment to it, so the state component passes through
unchanged. -/
def tickWithState (cfg : Config) (inp : TickInput) : TickOutput × Config :=
  (tick cfg inp, cfg)

/-! ## Fixtures used by the concrete witnesses -/

/-- The rational 164.9, built without normalisation so the kernel can
evaluate it. -/
def q1649d10 : ℚ := ⟨1649, 10, by decide, by decide⟩

/-- A district record whose weekly incidence is `wi`. -/
def exDistrict (wi : ℚ) : District :=
  { zeroDistrict with weekIncidence := wi }

/-- A response containing exactly the fixed key with incidence `wi`. -/
def exResponse (wi : ℚ) : Response :=
  ⟨[(key, exDistrict wi)], zeroMeta⟩

/-- A decoder that always succeeds with `exResponse wi`. -/
def exUnmarshal (wi : ℚ) : Unmarshal := fun _ => (exResponse wi, none)

/-- A session in which the channel resolves, the guild resolves, and a role
named "everyone" exists with id 42. -/
def exDiscordOk : DiscordSession :=
  ⟨fun _ => .ok ⟨"guild1"⟩, fun _ => .ok ⟨[⟨"42", "everyone"⟩]⟩⟩

/-- A session in which the guild resolves but has no role named
"everyone". -/
def exDiscordNoRole : DiscordSession :=
  ⟨fun _ => .ok ⟨"guild1"⟩, fun _ => .ok ⟨[]⟩⟩

/-- A concrete configuration. -/
def exCfg : Config := ⟨"0 18 * * *", "", "chan1"⟩

/-- A concrete date, 11.10.2026. -/
def exDate : Date := ⟨11, 10, 2026⟩

/-- A tick input with a successful fetch of `exResponse wi` (HTTP status
200) against the session `ds`. -/
def exInput (wi : ℚ) (ds : DiscordSession) : TickInput :=
  ⟨.success 200 (.ok "body"), exUnmarshal wi, exDate, ds⟩

/-- A tick input whose transport fails. -/
def exInputFail : TickInput :=
  ⟨.failure "boom", exUnmarshal 165, exDate, exDiscordOk⟩

/-- A tick input whose fetch succeeds with a response lacking the fixed
key. -/
def exInputNoKey : TickInput :=
  ⟨.success 200 (.ok "{}"), fun _ => (zeroResponse, none), exDate, exDiscordOk⟩

/-- A tick input like `exInput 165 exDiscordOk` but with the given HTTP
status code. -/
def exInputStatus (s : Nat) : TickInput :=
  ⟨.success s (.ok "body"), exUnmarshal 165, exDate, exDiscordOk⟩

/-! ## Helper lemmas -/

/-- `truncToUint32` is the `toNat` of the mathematical floor. -/
theorem truncToUint32_eq_floor_toNat (q : ℚ) :
    truncToUint32 q = (Int.floor q).toNat := by
  rw [truncToUint32, (Rat.floor_def' q).trans Rat.floor_def.symm]

/-- For nonnegative `q`, `truncToUint32 q` is the integer part of `q`. -/
theorem truncToUint32_bounds (q : ℚ) (h : 0 ≤ q) :
    (truncToUint32 q : ℚ) ≤ q ∧ q < (truncToUint32 q : ℚ) + 1 := by
  have hfl : ((truncToUint32 q : ℤ)) = ⌊q⌋ := by
    rw [truncToUint32_eq_floor_toNat]
    exact Int.toNat_of_nonneg (Int.floor_nonneg.mpr h)
  constructor
  · calc ((truncToUint32 q : ℚ)) = ((truncToUint32 q : ℤ) : ℚ) := by push_cast; ring
    _ = ((⌊q⌋ : ℤ) : ℚ) := by rw [hfl]
    _ ≤ q := Int.floor_le q
  · calc q < ⌊q⌋ + 1 := Int.lt_floor_add_one q
    _ = ((truncToUint32 q : ℤ) : ℚ) + 1 := by rw [hfl]
    _ = (truncToUint32 q : ℚ) + 1 := by push_cast; ring

/-- Every error path of `everyone` carries the empty string as mention. -/
theorem everyone_mention_empty_of_error (cfg : Config) (ds : DiscordSession)
    (e : String) (h : (everyone cfg ds).2 = some e) :
    (everyone cfg ds).1 = "" := by
  unfold everyone at h ⊢
  cases hc : ds.channel cfg.channelID with
  | error err => simp [hc]
  | ok c =>
    cases hg : ds.guild c.guildID with
    | error err => simp [hc, hg]
    | ok g =>
      cases hr : g.roles.find? (fun role => role.name == "everyone") with
      | none => simp [hc, hg, hr]
      | some role => simp [hc, hg, hr] at h

/-- `fetchData` never pairs a nil record with a nil error. -/
theorem fetchData_not_none_none (u : Unmarshal) (g : GetResult)
    (h : (fetchData u g).2 = none) : ∃ r, (fetchData u g).1 = some r := by
  cases g with
  | failure err => simp [fetchData] at h
  | success s br =>
    cases br with
    | error err => simp [fetchData] at h
    | ok bytes => exact ⟨(u bytes).1, rfl⟩

/-! ## Claim theorems -/

/-- C1: for every tick whose fetch succeeds, the alert message is sent
(as the second message after the status message) exactly when the derived
incidence is at least 165; the bound is inclusive, since the two cases
together cover every incidence. -/
theorem C1_alert_iff_threshold (cfg : Config) (inp : TickInput) (r : Response)
    (h : fetchData inp.unmarshal inp.get = (some r, none)) :
    (165 ≤ derivedIncidence r →
      (tick cfg inp).sent
        = [statusMessage (getCurrentTimestamp inp.date) (derivedIncidence r),
           alertMessage (everyone cfg inp.discord).1]) ∧
    (derivedIncidence r < 165 →
      (tick cfg inp).sent
        = [statusMessage (getCurrentTimestamp inp.date) (derivedIncidence r)]) := by
  constructor
  · intro hinc
    simp [tick, h, hinc]
  · intro hinc
    simp [tick, h, Nat.not_le.mpr hinc]

/-- Witness for C1 at incidence exactly 165: the alert is sent. -/
theorem C1_alert_iff_threshold_witness :
    (tick exCfg (exInput 165 exDiscordOk)).sent
      = [statusMessage (getCurrentTimestamp exDate)
           (derivedIncidence (exResponse 165)),
         alertMessage (everyone exCfg exDiscordOk).1] :=
  (C1_alert_iff_threshold exCfg (exInput 165 exDiscordOk) (exResponse 165)
    rfl).1 (by decide)

/-- C2: for every decoded response containing the fixed key, the derived
incidence is the integer part of that entry's weekly incidence: it is the
unique natural number with `n ≤ weekIncidence < n + 1` (truncation, not
rounding). -/
theorem C2_truncated_incidence (r : Response) (d : District)
    (hk : List.lookup key r.data = some d) (h0 : 0 ≤ d.weekIncidence) :
    (derivedIncidence r : ℚ) ≤ d.weekIncidence ∧
      d.weekIncidence < (derivedIncidence r : ℚ) + 1 := by
  have hm : mapIndex r.data key = d := by rw [mapIndex, hk]; rfl
  rw [derivedIncidence, hm]
  exact truncToUint32_bounds _ h0

/-- Witness for C2: weekly incidence 164.9 yields 164, and 165.0 yields
165. -/
theorem C2_truncated_incidence_witness :
    ((derivedIncidence (exResponse q1649d10) : ℚ) ≤ q1649d10 ∧
      q1649d10 < (derivedIncidence (exResponse q1649d10) : ℚ) + 1) ∧
    derivedIncidence (exResponse q1649d10) = 164 ∧
    derivedIncidence (exResponse 165) = 165 :=
  ⟨C2_truncated_incidence (exResponse q1649d10) (exDistrict q1649d10)
      rfl (by decide),
   by decide, by decide⟩

/-- Counterexample to C3 as stated: with incidence 165 and a guild lacking
an "everyone" role, mention resolution fails, yet the tick sends a second
(broadcast) message after the status message; the claim said the broadcast
is not sent. -/
theorem C3_counterexample :
    (everyone exCfg exDiscordNoRole).2
        = some "could not find everyone role, what the fuck" ∧
    165 ≤ derivedIncidence (exResponse 165) ∧
    (tick exCfg (exInput 165 exDiscordNoRole)).sent
      = ["Inzidenzwert für den 11.10.2026: **165**",
         " Distanzunterricht, wooow"] := by
  refine ⟨rfl, by decide, by decide⟩

/-- C3 (amended): when the incidence is at least 165 and mention resolution
fails, the status message is still sent first, and the broadcast is also
sent, with the empty string in place of the mention. -/
theorem C3_amended_alert_still_sent (cfg : Config) (inp : TickInput)
    (r : Response) (e : String)
    (h : fetchData inp.unmarshal inp.get = (some r, none))
    (hinc : 165 ≤ derivedIncidence r)
    (herr : (everyone cfg inp.discord).2 = some e) :
    (tick cfg inp).sent
      = [statusMessage (getCurrentTimestamp inp.date) (derivedIncidence r),
         alertMessage ""] := by
  have hm := everyone_mention_empty_of_error cfg inp.discord e herr
  simp [tick, h, hinc, hm]

/-- Witness for the amended C3. -/
theorem C3_amended_witness :
    (tick exCfg (exInput 165 exDiscordNoRole)).sent
      = [statusMessage (getCurrentTimestamp exDate)
           (derivedIncidence (exResponse 165)),
         alertMessage ""] :=
  C3_amended_alert_still_sent exCfg (exInput 165 exDiscordNoRole)
    (exResponse 165) "could not find everyone role, what the fuck"
    rfl (by decide) rfl

/-- C4: a tick whose fetch fails writes the diagnostic to standard error,
sends no chat message, and leaves the cross-tick state (the configuration)
unchanged. -/
theorem C4_fetch_failure_tick (cfg : Config) (inp : TickInput) (e : String)
    (h : (fetchData inp.unmarshal inp.get).2 = some e) :
    (tickWithState cfg inp).1.sent = [] ∧
    (tickWithState cfg inp).1.stderr
      = ["could not fetch COVID data: " ++ e ++ "\n"] ∧
    (tickWithState cfg inp).2 = cfg := by
  rcases hfd : fetchData inp.unmarshal inp.get with ⟨rp, ep⟩
  rw [hfd] at h
  simp only at h
  subst h
  refine ⟨?_, ?_, rfl⟩ <;> simp [tickWithState, tick, hfd]

/-- Witness for C4 at a concrete transport failure. -/
theorem C4_fetch_failure_witness :
    (tickWithState exCfg exInputFail).1.sent = [] ∧
    (tickWithState exCfg exInputFail).1.stderr
      = ["could not fetch COVID data: " ++ "boom" ++ "\n"] ∧
    (tickWithState exCfg exInputFail).2 = exCfg :=
  C4_fetch_failure_tick exCfg exInputFail "boom" rfl

/-- C5: when the fixed key is absent from a successfully decoded response,
the derived incidence is the zero value, no error is raised, and the tick
sends exactly the status message displaying 0. -/
theorem C5_missing_key_zero (cfg : Config) (inp : TickInput) (r : Response)
    (h : fetchData inp.unmarshal inp.get = (some r, none))
    (habs : List.lookup key r.data = none) :
    derivedIncidence r = 0 ∧
    (tick cfg inp).sent = [statusMessage (getCurrentTimestamp inp.date) 0] := by
  have hz : derivedIncidence r = 0 := by
    rw [derivedIncidence, mapIndex, habs]
    rfl
  refine ⟨hz, ?_⟩
  simp [tick, h, hz]

/-- Witness for C5 at a response with an empty data mapping. -/
theorem C5_missing_key_witness :
    derivedIncidence zeroResponse = 0 ∧
    (tick exCfg exInputNoKey).sent
      = [statusMessage (getCurrentTimestamp exDate) 0] :=
  C5_missing_key_zero exCfg exInputNoKey zeroResponse rfl rfl

/-- C6 (code evaluated at the failing input): `init` never calls
`flag.Parse`, so a token supplied on the command line does not reach the
configuration, which keeps all three defaults; the spec-modelled reading
would have carried the supplied value. -/
theorem C6_flag_parse_never_called :
    initConfig [("token", "abc")]
        = { timer := "0 18 * * *", token := "", channelID := "" } ∧
    initConfigSpec [("token", "abc")]
        = { timer := "0 18 * * *", token := "abc", channelID := "" } := by
  decide

/-- C7: the tick is deterministic modulo the wall clock: two runs whose
fetches return the same body (any HTTP status), with the same decoder, the
same current date and the same session behaviour, produce identical
output, in particular byte-identical status and alert texts. -/
theorem C7_tick_deterministic (cfg : Config) (i1 i2 : TickInput)
    (s1 s2 : Nat) (b : String)
    (h1 : i1.get = .success s1 (.ok b)) (h2 : i2.get = .success s2 (.ok b))
    (hu : i1.unmarshal = i2.unmarshal) (hd : i1.date = i2.date)
    (hds : i1.discord = i2.discord) :
    tick cfg i1 = tick cfg i2 := by
  have hf : fetchData i1.unmarshal i1.get = fetchData i2.unmarshal i2.get := by
    rw [h1, h2, hu]
    rfl
  simp only [tick, hf, hd, hds]

/-- Witness for C7: identical bodies under statuses 200 and 500 give
identical tick output. -/
theorem C7_tick_deterministic_witness :
    tick exCfg (exInputStatus 200) = tick exCfg (exInputStatus 500) :=
  C7_tick_deterministic exCfg (exInputStatus 200) (exInputStatus 500)
    200 500 "body" rfl rfl rfl rfl rfl

/-- C8: `fetchData` never inspects the HTTP status code: responses with the
same body give the same result under any two statuses, and whenever the
body decodes without error the fetch succeeds, whatever the status. -/
theorem C8_status_code_ignored (u : Unmarshal) (s1 s2 : Nat) (b : String) :
    fetchData u (.success s1 (.ok b)) = fetchData u (.success s2 (.ok b)) ∧
    ((u b).2 = none →
      fetchData u (.success s1 (.ok b)) = (some (u b).1, none)) := by
  refine ⟨rfl, fun h => ?_⟩
  simp [fetchData, h]

/-- Witness for C8: a status-500 response with a decodable body is a
successful fetch, identical to the status-200 one. -/
theorem C8_status_code_ignored_witness :
    fetchData (exUnmarshal 165) (.success 500 (.ok "body"))
        = fetchData (exUnmarshal 165) (.success 200 (.ok "body")) ∧
    fetchData (exUnmarshal 165) (.success 500 (.ok "body"))
        = (some (exResponse 165), none) :=
  ⟨(C8_status_code_ignored (exUnmarshal 165) 500 200 "body").1,
   (C8_status_code_ignored (exUnmarshal 165) 500 200 "body").2 rfl⟩

/-- C9: when JSON decoding fails, `fetchData` returns the non-nil record
(whatever the decoder left in it) together with the non-nil error. -/
theorem C9_decode_error_nonnil (u : Unmarshal) (s : Nat) (b e : String)
    (h : (u b).2 = some e) :
    (fetchData u (.success s (.ok b))).1 = some (u b).1 ∧
    (fetchData u (.success s (.ok b))).2 = some e :=
  ⟨rfl, by simp [fetchData, h]⟩

/-- A decoder that always fails, leaving the zero-value record. -/
def exBadUnmarshal : Unmarshal := fun _ => (zeroResponse, some "invalid character")

/-- Witness for C9 at a concrete decode failure. -/
theorem C9_decode_error_nonnil_witness :
    (fetchData exBadUnmarshal (.success 200 (.ok "not json"))).1
        = some (exBadUnmarshal "not json").1 ∧
    (fetchData exBadUnmarshal (.success 200 (.ok "not json"))).2
        = some "invalid character" :=
  C9_decode_error_nonnil exBadUnmarshal 200 "not json" "invalid character" rfl

/-- C10: when the incidence is at least 165 and `everyone` returns an
error, the tick discards the error and still sends the broadcast, whose
text is the empty mention followed by the fixed suffix:
`" Distanzunterricht, wooow"`. -/
theorem C10_error_discarded_alert_sent (cfg : Config) (inp : TickInput)
    (r : Response) (e : String)
    (h : fetchData inp.unmarshal inp.get = (some r, none))
    (hinc : 165 ≤ derivedIncidence r)
    (herr : (everyone cfg inp.discord).2 = some e) :
    (tick cfg inp).sent
      = [statusMessage (getCurrentTimestamp inp.date) (derivedIncidence r),
         " Distanzunterricht, wooow"] := by
  have hm := everyone_mention_empty_of_error cfg inp.discord e herr
  simp [tick, h, hinc, hm, alertMessage]

/-- A session whose channel lookup fails outright. -/
def exDiscordChanErr : DiscordSession :=
  ⟨fun _ => .error "channel lookup failed", fun _ => .ok ⟨[]⟩⟩

/-- Witness for C10 at a concrete channel-lookup failure. -/
theorem C10_error_discarded_witness :
    (tick exCfg (exInput 165 exDiscordChanErr)).sent
      = [statusMessage (getCurrentTimestamp exDate)
           (derivedIncidence (exResponse 165)),
         " Distanzunterricht, wooow"] :=
  C10_error_discarded_alert_sent exCfg (exInput 165 exDiscordChanErr)
    (exResponse 165) "channel lookup failed" rfl (by decide) rfl

end Schoolnt
